import Mathlib

/-!
Verification of the Nigeria waitlist dashboard (`src/NG_Waitlist_db.py`).

The repository is a single Streamlit script: a parameterized SQL query
builder over the `support_waitlist` table (`fetch_waitlist_rows`, lines
103-157), script-level wiring that converts the date inputs to timestamps
(lines 195-197), a try/except around the single fetch call (lines
200-205), and a distinct-count aggregation over the returned dataframe
(lines 208-212).

The embedding below models:
  * the `support_waitlist` rows (`WaitlistRow`), with `email`, `name`,
    `phone` as text and `deleted_at` the only nullable column, following
    the table schema the script documents;
  * timestamps as natural numbers (seconds since the epoch) and a calendar
    date as its day number, so that midnight of day `d` is `d * 86400`;
  * the semantics of the SQL `WHERE` clause that `fetch_waitlist_rows`
    builds, as a boolean row predicate, and the `ORDER BY created_at DESC`
    as a sort; the database engine itself is external to the repository,
    so the semantics of PostgreSQL `LIKE` / `ILIKE` patterns (`%` matches
    any sequence, `_` any single character, backslash escapes the next
    character, `ILIKE` compares after lowercasing) is spelled out here,
    with lowercasing modelled on ASCII letters;
  * the literal SQL text and bound-parameter list the function constructs
    (`buildQuery`), for properties about the query text itself;
  * the dataframe distinct count `df.drop_duplicates(subset=[c])[c].nunique()`
    over rows given as column-name-indexed mappings, where pandas
    `drop_duplicates` treats nulls as equal and `nunique` ignores nulls;
  * the script's fetch step as a function of a database oracle, recording
    how many times the query is attempted and what is rendered.
-/

/-- ASCII lowercasing of a single character, as PostgreSQL `ILIKE` applies
to ASCII data. Characters outside the ASCII uppercase range are unchanged. -/
def lowerChar : Char → Char
  | 'A' => 'a' | 'B' => 'b' | 'C' => 'c' | 'D' => 'd' | 'E' => 'e'
  | 'F' => 'f' | 'G' => 'g' | 'H' => 'h' | 'I' => 'i' | 'J' => 'j'
  | 'K' => 'k' | 'L' => 'l' | 'M' => 'm' | 'N' => 'n' | 'O' => 'o'
  | 'P' => 'p' | 'Q' => 'q' | 'R' => 'r' | 'S' => 's' | 'T' => 't'
  | 'U' => 'u' | 'V' => 'v' | 'W' => 'w' | 'X' => 'x' | 'Y' => 'y'
  | 'Z' => 'z'
  | c => c

/-- Lowercase a character list. -/
def lowerL (cs : List Char) : List Char := cs.map lowerChar

/-- `startsWithL cs s` holds when `cs` is a prefix of `s`. -/
def startsWithL : List Char → List Char → Bool
  | [], _ => true
  | _ :: _, [] => false
  | c :: cs, d :: ds => c == d && startsWithL cs ds

/-- One element of a parsed PostgreSQL `LIKE` pattern: the `%` wildcard, the
`_` wildcard, or a literal character (possibly produced by an escape). -/
inductive LikeTok where
  | pct
  | uscore
  | lit (c : Char)
deriving DecidableEq, Repr

/-- Parse a PostgreSQL `LIKE` pattern: `%` is the any-sequence wildcard, `_`
the any-character wildcard, a backslash escapes the following character, and
any other character stands for itself. A pattern ending in a bare backslash
is rejected by PostgreSQL (`none` here). -/
def lexLike : List Char → Option (List LikeTok)
  | [] => some []
  | c :: cs =>
    if c == '%' then (lexLike cs).map (fun ts => LikeTok.pct :: ts)
    else if c == '_' then (lexLike cs).map (fun ts => LikeTok.uscore :: ts)
    else if c == '\\' then
      match cs with
      | [] => none
      | d :: cs' => (lexLike cs').map (fun ts => LikeTok.lit d :: ts)
    else (lexLike cs).map (fun ts => LikeTok.lit c :: ts)

/-- Match a parsed `LIKE` pattern against a character list: `%` matches any
(possibly empty) sequence, `_` matches exactly one character, a literal
matches itself. -/
def likeTokMatch : List LikeTok → List Char → Bool
  | [], s => s.isEmpty
  | LikeTok.pct :: ps, s => s.tails.any (fun t => likeTokMatch ps t)
  | LikeTok.uscore :: ps, s =>
    match s with
    | [] => false
    | _ :: s' => likeTokMatch ps s'
  | LikeTok.lit c :: ps, s =>
    match s with
    | [] => false
    | d :: s' => c == d && likeTokMatch ps s'

/-- PostgreSQL `s ILIKE p`: `LIKE` matching after lowercasing both sides; an
invalid pattern (trailing escape) makes the query fail, so it matches no row. -/
def ilike (s p : String) : Bool :=
  match lexLike (lowerL p.data) with
  | none => false
  | some toks => likeTokMatch toks (lowerL s.data)

/-- The pattern `f"%{term}%"` that `fetch_waitlist_rows` builds for every
substring search (line 125) and for every exclude term (line 147). -/
def pat (term : String) : String := "%" ++ term ++ "%"

/-- The specification-side notion of matching: `term` appears
case-insensitively as a contiguous substring of `s`. -/
def icontains (s term : String) : Bool :=
  (lowerL s.data).tails.any (fun t => startsWithL (lowerL term.data) t)

/-- A pattern character with no special `LIKE` meaning. -/
def plainChar (c : Char) : Bool := !(c == '%' || c == '_' || c == '\\')

/-- A search or exclude term free of `LIKE` wildcard and escape characters. -/
def plainStr (t : String) : Bool := t.data.all plainChar

/-- One row of the `support_waitlist` table, with the column set the script
documents and selects: id, email, name, created_at, updated_at, phone,
deleted_at. Timestamps are seconds since the epoch; `deleted_at` is the
only nullable column (the tombstone marker). -/
structure WaitlistRow where
  id : Nat
  email : String
  name : String
  phone : String
  created_at : Nat
  updated_at : Nat
  deleted_at : Option Nat
deriving DecidableEq, Repr

/-- The search-column selector: the UI selectbox (line 177) offers exactly
`any`, `id`, `email`, `name`, `phone`. -/
inductive SearchCol where
  | any | id | email | name | phone
deriving DecidableEq, Repr

/-- SQL name of a search column, as interpolated into the query text. -/
def SearchCol.toName : SearchCol → String
  | .any => "any" | .id => "id" | .email => "email"
  | .name => "name" | .phone => "phone"

/-- The search clause of `fetch_waitlist_rows` (lines 122-136): skipped for
an empty term; for column `any`, `CAST(id AS TEXT) ILIKE :pattern OR email
ILIKE :pattern OR name ILIKE :pattern OR phone ILIKE :pattern`; for column
`id`, `CAST(id AS TEXT) = :id_term`; otherwise `{col} ILIKE :pattern`. -/
def searchPredB (search_col : SearchCol) (search_term : String) (r : WaitlistRow) : Bool :=
  if search_term == "" then true
  else
    match search_col with
    | .any =>
        ilike (toString r.id) (pat search_term) || ilike r.email (pat search_term) ||
        ilike r.name (pat search_term) || ilike r.phone (pat search_term)
    | .id => toString r.id == search_term
    | .email => ilike r.email (pat search_term)
    | .name => ilike r.name (pat search_term)
    | .phone => ilike r.phone (pat search_term)

/-- One exclude clause (line 146): `CAST(id AS TEXT) = :ex_i OR email ILIKE
:ex_i_pat OR name ILIKE :ex_i_pat OR phone ILIKE :ex_i_pat` with
`:ex_i = term` and `:ex_i_pat = %term%`. -/
def excludeMatchB (term : String) (r : WaitlistRow) : Bool :=
  toString r.id == term || ilike r.email (pat term) ||
  ilike r.name (pat term) || ilike r.phone (pat term)

/-- The exclusion clause (lines 139-149): `AND NOT (clause_0 OR ... OR
clause_n)`; with no exclude terms no clause is added. -/
def exclPredB (terms : List String) (r : WaitlistRow) : Bool :=
  !(terms.any (fun t => excludeMatchB t r))

/-- The deleted-row clause (lines 110-111): `deleted_at IS NULL` unless
`include_deleted`. -/
def deletedOkB (include_deleted : Bool) (r : WaitlistRow) : Bool :=
  include_deleted || r.deleted_at == none

/-- The date clauses (lines 114-120): `created_at >= :start_date` and
`created_at <= :end_date`, each only when the bound is present. -/
def dateOkB (sd ed : Option Nat) (r : WaitlistRow) : Bool :=
  (match sd with
   | none => true
   | some t => decide (t ≤ r.created_at)) &&
  (match ed with
   | none => true
   | some t => decide (r.created_at ≤ t))

/-- All `WHERE` clauses of `fetch_waitlist_rows` except the exclusion block,
in the order the function appends them. -/
def baseFilters (sd ed : Option Nat) (include_deleted : Bool) (search_col : SearchCol)
    (search_term : String) (r : WaitlistRow) : Bool :=
  deletedOkB include_deleted r && dateOkB sd ed r && searchPredB search_col search_term r

/-- The full `WHERE` clause of `fetch_waitlist_rows`. -/
def rowMatches (sd ed : Option Nat) (include_deleted : Bool) (search_col : SearchCol)
    (search_term : String) (exclude_terms : List String) (r : WaitlistRow) : Bool :=
  baseFilters sd ed include_deleted search_col search_term r && exclPredB exclude_terms r

/-- Insert a row into a list kept in descending `created_at` order. -/
def insertByCreatedDesc (r : WaitlistRow) : List WaitlistRow → List WaitlistRow
  | [] => [r]
  | x :: xs =>
    if x.created_at ≤ r.created_at then r :: x :: xs
    else x :: insertByCreatedDesc r xs

/-- `ORDER BY created_at DESC` (line 152), as an insertion sort. -/
def orderByCreatedDesc (l : List WaitlistRow) : List WaitlistRow :=
  l.foldr insertByCreatedDesc []

/-- `fetch_waitlist_rows` (lines 103-157), denotationally: the rows of the
table satisfying every appended `WHERE` clause, ordered by `created_at`
descending. The table stands for the database contents the connection
reads. -/
def fetch_waitlist_rows (table : List WaitlistRow) (sd ed : Option Nat)
    (include_deleted : Bool) (search_col : SearchCol) (search_term : String)
    (exclude_terms : List String) : List WaitlistRow :=
  orderByCreatedDesc
    (table.filter (fun r => rowMatches sd ed include_deleted search_col search_term exclude_terms r))

/-- Line 196: `pd.to_datetime(start_date).isoformat()` turns the selected
start date into midnight of that day; with days numbered from the epoch and
timestamps in seconds, midnight of day `d` is `d * 86400`. -/
def start_ts (start_date : Option Nat) : Option Nat :=
  start_date.map (fun d => d * 86400)

/-- Line 197: `pd.to_datetime(end_date).isoformat()` turns the selected end
date into midnight of that day, with no day added. -/
def end_ts (end_date : Option Nat) : Option Nat :=
  end_date.map (fun d => d * 86400)

/-- Bound-parameter key `ex_i` for the i-th exclude term (line 143). -/
def excludeKey (i : Nat) : String := "ex_" ++ toString i

/-- The SQL text of the i-th exclude clause (line 146). -/
def excludeClause (i : Nat) : String :=
  "(CAST(id AS TEXT) = :" ++ excludeKey i ++ " OR email ILIKE :" ++ excludeKey i ++
  "_pat OR name ILIKE :" ++ excludeKey i ++ "_pat OR phone ILIKE :" ++ excludeKey i ++ "_pat)"

/-- The bound parameters contributed by the exclude terms, in insertion
order: `ex_i` bound to the term, `ex_i_pat` bound to `%term%` (lines 142-147). -/
def excludeParams (terms : List String) : List (String × String) :=
  (terms.enum.map
    (fun it => [(excludeKey it.1, it.2), (excludeKey it.1 ++ "_pat", "%" ++ it.2 ++ "%")])).flatten

/-- The SQL text and bound-parameter mapping that `fetch_waitlist_rows`
constructs (lines 105-152), built clause by clause in source order. Date
bounds are the ISO strings the script computes; parameters are an
insertion-ordered association list, as a Python dict is. -/
def buildQuery (start_date end_date : Option String) (include_deleted : Bool)
    (search_col : SearchCol) (search_term : String) (exclude_terms : List String) :
    String × List (String × String) :=
  let sql0 := "SELECT id, email, name, created_at, updated_at, phone, deleted_at FROM support_waitlist WHERE 1=1"
  let sql1 := if include_deleted then sql0 else sql0 ++ " AND deleted_at IS NULL"
  let sp2 : String × List (String × String) :=
    match start_date with
    | none => (sql1, [])
    | some d => (sql1 ++ " AND created_at >= :start_date", [("start_date", d)])
  let sp3 :=
    match end_date with
    | none => sp2
    | some d => (sp2.1 ++ " AND created_at <= :end_date", sp2.2 ++ [("end_date", d)])
  let sp4 :=
    if search_term == "" then sp3
    else
      match search_col with
      | SearchCol.any =>
          (sp3.1 ++ " AND (CAST(id AS TEXT) ILIKE :pattern OR email ILIKE :pattern OR name ILIKE :pattern OR phone ILIKE :pattern)",
           sp3.2 ++ [("pattern", "%" ++ search_term ++ "%")])
      | SearchCol.id =>
          (sp3.1 ++ " AND CAST(id AS TEXT) = :id_term",
           sp3.2 ++ [("id_term", search_term)])
      | c =>
          (sp3.1 ++ " AND " ++ SearchCol.toName c ++ " ILIKE :pattern",
           sp3.2 ++ [("pattern", "%" ++ search_term ++ "%")])
  let sp5 :=
    if exclude_terms.isEmpty then sp4
    else
      (sp4.1 ++ " AND NOT (" ++
         String.intercalate " OR " (exclude_terms.enum.map (fun it => excludeClause it.1)) ++ ")",
       sp4.2 ++ excludeParams exclude_terms)
  (sp5.1 ++ " ORDER BY created_at DESC", sp5.2)

/-- Keep-first de-duplication of rows by a key, accumulating the keys
already seen: `df.drop_duplicates(subset=[...])` with `keep="first"`, where
pandas treats null keys as duplicates of each other. -/
def dropDupsBy {ρ α : Type} [DecidableEq α] (key : ρ → α) :
    List ρ → List α → List ρ
  | [], _ => []
  | r :: rs, seen =>
    if key r ∈ seen then dropDupsBy key rs seen
    else r :: dropDupsBy key rs (key r :: seen)

/-- pandas `Series.nunique`: the number of distinct non-null values. -/
def nunique {α : Type} [DecidableEq α] (xs : List (Option α)) : Nat :=
  (xs.filterMap id).dedup.length

/-- Line 212: `df.drop_duplicates(subset=[distinct_by])[distinct_by].nunique()`.
A dataframe row is a mapping from column name to nullable value. -/
def distinct_count (c : String) (rows : List (String → Option String)) : Nat :=
  nunique ((dropDupsBy (fun r => r c) rows []).map (fun r => r c))

/-- Lines 208-210: if the requested distinct column is not among the
dataframe's columns, fall back to `email`. -/
def resolve_distinct_by (distinct_by : String) (columns : List String) : String :=
  if distinct_by ∈ columns then distinct_by else "email"

/-- The distinct-count metric the script displays (lines 208-212): resolve
the column against the result schema, then count. -/
def distinct_metric (distinct_by : String) (columns : List String)
    (rows : List (String → Option String)) : Nat :=
  distinct_count (resolve_distinct_by distinct_by columns) rows

/-- Outcome of one execution of the database query: a row set, or a raised
query error. -/
inductive QueryOutcome where
  | ok (rows : List WaitlistRow)
  | err (msg : String)
deriving DecidableEq, Repr

/-- What the script run shows after the fetch step: the fetched rows, an
inline error message with rendering halted (`st.error` + `st.stop`, session
still alive for the next filter change), or an uncaught crash. -/
inductive RenderOutcome where
  | rendered (rows : List WaitlistRow)
  | errorShown (msg : String)
  | crashed
deriving DecidableEq, Repr

/-- The script's fetch step (lines 200-205): one call to
`fetch_waitlist_rows` inside `try`, with `except` showing the error inline
and stopping this render. The oracle gives the outcome of the i-th query
attempt; the first component counts how many attempts were made. -/
def render_fetch (db : Nat → QueryOutcome) : Nat × RenderOutcome :=
  match db 0 with
  | .ok rows => (1, .rendered rows)
  | .err m => (1, .errorShown m)

/-! ### Helper lemmas: `ILIKE` with a wildcard-free term is substring match -/

theorem plainChar_lowerChar {c : Char} (h : plainChar c = true) :
    plainChar (lowerChar c) = true := by
  unfold lowerChar
  split <;> first | decide | exact h

theorem lowerL_all_plain {cs : List Char} (h : cs.all plainChar = true) :
    (lowerL cs).all plainChar = true := by
  rw [List.all_eq_true] at h ⊢
  intro x hx
  rw [lowerL, List.mem_map] at hx
  obtain ⟨c, hc, rfl⟩ := hx
  exact plainChar_lowerChar (h c hc)

theorem lexLike_plain_cons (c : Char) (cs : List Char) (h1 : (c == '%') = false)
    (h2 : (c == '_') = false) (h3 : (c == '\\') = false) :
    lexLike (c :: cs) = (lexLike cs).map (fun ts => LikeTok.lit c :: ts) := by
  rw [lexLike.eq_def]
  simp only [h1, h2, h3, Bool.false_eq_true, if_false]

theorem lexLike_pct_cons (cs : List Char) :
    lexLike ('%' :: cs) = (lexLike cs).map (fun ts => LikeTok.pct :: ts) := by
  rw [lexLike.eq_def]
  simp

theorem plainChar_split {c : Char} (h : plainChar c = true) :
    (c == '%') = false ∧ (c == '_') = false ∧ (c == '\\') = false := by
  simp only [plainChar, Bool.not_eq_true', Bool.or_eq_false_iff] at h
  exact ⟨h.1.1, h.1.2, h.2⟩

theorem lexLike_plain_append_pct :
    ∀ (cs : List Char), cs.all plainChar = true →
      lexLike (cs ++ ['%']) = some (cs.map LikeTok.lit ++ [LikeTok.pct]) := by
  intro cs
  induction cs with
  | nil => intro _; rfl
  | cons c cs ih =>
    intro h
    rw [List.all_cons, Bool.and_eq_true] at h
    obtain ⟨h1, h2, h3⟩ := plainChar_split h.1
    rw [List.cons_append, lexLike_plain_cons c _ h1 h2 h3, ih h.2]
    rfl

theorem likeTokMatch_nil_star (s : List Char) :
    s.tails.any (fun t => likeTokMatch [] t) = true := by
  induction s with
  | nil => rfl
  | cons c s ih => rw [List.tails_cons, List.any_cons, ih, Bool.or_true]

theorem likeTokMatch_lit_startsWith :
    ∀ (cs : List Char) (s : List Char),
      likeTokMatch (cs.map LikeTok.lit ++ [LikeTok.pct]) s = startsWithL cs s := by
  intro cs
  induction cs with
  | nil =>
    intro s
    show s.tails.any (fun t => likeTokMatch [] t) = true
    exact likeTokMatch_nil_star s
  | cons c cs ih =>
    intro s
    cases s with
    | nil => rfl
    | cons d s' =>
      show (c == d && likeTokMatch (cs.map LikeTok.lit ++ [LikeTok.pct]) s') = _
      rw [ih s']
      rfl

theorem likeTokMatch_star_lit (cs : List Char) (s : List Char) :
    likeTokMatch (LikeTok.pct :: (cs.map LikeTok.lit ++ [LikeTok.pct])) s =
      s.tails.any (fun t => startsWithL cs t) := by
  have hfun : (fun t => likeTokMatch (cs.map LikeTok.lit ++ [LikeTok.pct]) t) =
      fun t => startsWithL cs t :=
    funext (likeTokMatch_lit_startsWith cs)
  show s.tails.any (fun t => likeTokMatch (cs.map LikeTok.lit ++ [LikeTok.pct]) t) = _
  rw [hfun]

theorem data_pat (term : String) : (pat term).data = '%' :: (term.data ++ ['%']) := by
  simp [pat, String.data_append]

theorem lowerL_data_pat (term : String) :
    lowerL ((pat term).data) = '%' :: (lowerL term.data ++ ['%']) := by
  rw [data_pat]
  simp [lowerL, List.map_append]
  rfl

theorem ilike_plain (s term : String) (h : plainStr term = true) :
    ilike s (pat term) = icontains s term := by
  unfold ilike icontains
  rw [lowerL_data_pat, lexLike_pct_cons,
    lexLike_plain_append_pct (lowerL term.data) (lowerL_all_plain h)]
  show likeTokMatch (LikeTok.pct :: ((lowerL term.data).map LikeTok.lit ++ [LikeTok.pct]))
      (lowerL s.data) = _
  exact likeTokMatch_star_lit (lowerL term.data) (lowerL s.data)

/-! ### Helper lemmas: membership in the fetched row set -/

theorem mem_insertByCreatedDesc {a r : WaitlistRow} {l : List WaitlistRow} :
    a ∈ insertByCreatedDesc r l ↔ a = r ∨ a ∈ l := by
  induction l with
  | nil => simp [insertByCreatedDesc]
  | cons x xs ih =>
    simp only [insertByCreatedDesc]
    split
    · simp
    · simp only [List.mem_cons, ih]
      tauto

theorem mem_orderByCreatedDesc {a : WaitlistRow} {l : List WaitlistRow} :
    a ∈ orderByCreatedDesc l ↔ a ∈ l := by
  induction l with
  | nil => simp [orderByCreatedDesc]
  | cons x xs ih =>
    show a ∈ insertByCreatedDesc x (orderByCreatedDesc xs) ↔ _
    rw [mem_insertByCreatedDesc, ih]
    simp

theorem mem_fetch {r : WaitlistRow} {table : List WaitlistRow} {sd ed : Option Nat}
    {incl : Bool} {sc : SearchCol} {term : String} {ex : List String} :
    r ∈ fetch_waitlist_rows table sd ed incl sc term ex ↔
      r ∈ table ∧ rowMatches sd ed incl sc term ex r = true := by
  simp [fetch_waitlist_rows, mem_orderByCreatedDesc, List.mem_filter]

/-! ### Helper lemmas: the distinct counter -/

theorem mem_map_dropDupsBy {ρ α : Type} [DecidableEq α] (key : ρ → α) (a : α) :
    ∀ (rows : List ρ) (seen : List α),
      a ∈ (dropDupsBy key rows seen).map key ↔ a ∈ rows.map key ∧ a ∉ seen := by
  intro rows
  induction rows with
  | nil => intro seen; simp [dropDupsBy]
  | cons r rs ih =>
    intro seen
    simp only [dropDupsBy]
    split
    · rename_i hseen
      rw [ih]
      simp only [List.map_cons, List.mem_cons]
      constructor
      · rintro ⟨h1, h2⟩; exact ⟨Or.inr h1, h2⟩
      · rintro ⟨h1 | h1, h2⟩
        · exact absurd (h1 ▸ hseen) h2
        · exact ⟨h1, h2⟩
    · rename_i hseen
      simp only [List.map_cons, List.mem_cons, ih, List.mem_cons]
      by_cases hak : a = key r
      · subst hak; simp [hseen]
      · simp [hak]

theorem dedup_length_eq_of_mem_iff {α : Type} [DecidableEq α] {l1 l2 : List α}
    (h : ∀ a, a ∈ l1 ↔ a ∈ l2) : l1.dedup.length = l2.dedup.length := by
  rw [← List.card_toFinset, ← List.card_toFinset]
  congr 1
  ext a
  simp [List.mem_toFinset, h a]

theorem mem_filterMap_id {α : Type} {l : List (Option α)} {a : α} :
    a ∈ l.filterMap id ↔ some a ∈ l := by
  simp [List.mem_filterMap]

theorem distinct_count_eq (c : String) (rows : List (String → Option String)) :
    distinct_count c rows = ((rows.map (fun r => r c)).filterMap id).dedup.length := by
  unfold distinct_count nunique
  apply dedup_length_eq_of_mem_iff
  intro a
  rw [mem_filterMap_id, mem_filterMap_id,
    mem_map_dropDupsBy (fun r => r c) (some a) rows []]
  simp

/-! ### Concrete rows used by witnesses and counterexamples -/

/-- Day number of 2024-01-01 (days since 1970-01-01). -/
def day20240101 : Nat := 19723

/-- Day number of 2024-01-31 (days since 1970-01-01). -/
def day20240131 : Nat := 19753

/-- An active row created at 2024-01-31T23:59:59, the last second of the
end day of the date range `[2024-01-01, 2024-01-31]`. -/
def rowEndOfDay : WaitlistRow :=
  ⟨1, "a@x.com", "Ada", "0801", day20240131 * 86400 + 86399, 0, none⟩

/-- An active row created at 2024-02-01T00:00:01, just past the range. -/
def rowPastRange : WaitlistRow :=
  ⟨2, "b@x.com", "Bola", "0802", (day20240131 + 1) * 86400 + 1, 0, none⟩

/-- An active row with the given id and otherwise empty text fields. -/
def rowWithId (i : Nat) : WaitlistRow := ⟨i, "", "", "", 0, 0, none⟩

/-- An active row whose email is `abc`: matched by the `LIKE` pattern
`%a_c%` although `a_c` is not a substring of any of its fields. -/
def rowAbc : WaitlistRow := ⟨7, "abc", "", "", 0, 0, none⟩

/-- An active row whose name contains `Oba`. -/
def rowOba : WaitlistRow := ⟨3, "c@x.com", "Obafemi", "0803", 10, 0, none⟩

/-! ### Claim theorems -/

/-- Claim C1: the code at the failing input. The spec claims the date-range
upper bound includes the full end day, and the comment on line 118 of the
source states the intent to add one day to `end_date`; but the code binds
`:end_date` to midnight of the end day and filters `created_at <= :end_date`,
so the row created at 2024-01-31T23:59:59 — which lies on the end day, as
its day quotient shows — is excluded from the result (the row past the
range is excluded as the claim states). -/
theorem c1_end_day_truncated :
    rowEndOfDay.created_at / 86400 = day20240131 ∧
    end_ts (some day20240131) = some (day20240131 * 86400) ∧
    fetch_waitlist_rows [rowEndOfDay, rowPastRange]
      (start_ts (some day20240101)) (end_ts (some day20240131))
      false SearchCol.any "" [] = [] := by
  refine ⟨by decide, rfl, by decide⟩

/-- Claim C2: with search column `id` and a non-empty term, the search
predicate of `fetch_waitlist_rows` is exact string equality of the term
against the id cast to text; term `42` selects the row with id 42 and not
the row with id 420. -/
theorem c2_search_id_exact :
    (∀ (term : String) (r : WaitlistRow), term ≠ "" →
        searchPredB SearchCol.id term r = (toString r.id == term)) ∧
    fetch_waitlist_rows [rowWithId 42, rowWithId 420] none none false
      SearchCol.id "42" [] = [rowWithId 42] := by
  constructor
  · intro term r hterm
    rw [searchPredB, if_neg]
    simp [hterm]
  · decide

/-- Claim C2 witness: the predicate characterization applied at term `42`
and the row with id 420. -/
theorem c2_search_id_exact_witness :
    "42" ≠ "" ∧ searchPredB SearchCol.id "42" (rowWithId 420) = (toString (rowWithId 420).id == "42") :=
  ⟨by decide, c2_search_id_exact.1 "42" (rowWithId 420) (by decide)⟩

/-- Claim C5 counterexample: the claim as stated is false. With search column
`any` and the non-empty term `a_c`, the row whose email is `abc` satisfies
the search predicate (because `_` is a single-character `LIKE` wildcard),
yet `a_c` does not occur case-insensitively as a substring of its id text,
email, name, or phone. -/
theorem c5_counterexample :
    searchPredB SearchCol.any "a_c" rowAbc = true ∧
    icontains (toString rowAbc.id) "a_c" = false ∧
    icontains rowAbc.email "a_c" = false ∧
    icontains rowAbc.name "a_c" = false ∧
    icontains rowAbc.phone "a_c" = false := by
  decide

/-- Claim C5 (amended): for a non-empty search term free of `LIKE` wildcard
and escape characters, a row satisfies the `any`-column search predicate of
`fetch_waitlist_rows` exactly when the term occurs case-insensitively as a
substring of its id cast to text, email, name, or phone. -/
theorem c5_search_any_substring (term : String) (r : WaitlistRow)
    (hne : term ≠ "") (hplain : plainStr term = true) :
    searchPredB SearchCol.any term r =
      (icontains (toString r.id) term || icontains r.email term ||
       icontains r.name term || icontains r.phone term) := by
  rw [searchPredB, if_neg (by simp [hne])]
  show (ilike (toString r.id) (pat term) || ilike r.email (pat term) ||
      ilike r.name (pat term) || ilike r.phone (pat term)) = _
  rw [ilike_plain _ _ hplain, ilike_plain _ _ hplain, ilike_plain _ _ hplain,
    ilike_plain _ _ hplain]

/-- Claim C5 witness: the amended characterization applied at term `oba`
and a row whose name contains `Obafemi`, where both sides evaluate to true. -/
theorem c5_search_any_substring_witness :
    ("oba" ≠ "" ∧ plainStr "oba" = true) ∧
    searchPredB SearchCol.any "oba" rowOba =
      (icontains (toString rowOba.id) "oba" || icontains rowOba.email "oba" ||
       icontains rowOba.name "oba" || icontains rowOba.phone "oba") :=
  ⟨⟨by decide, by decide⟩, c5_search_any_substring "oba" rowOba (by decide) (by decide)⟩

/-- Claim C6: with `include_deleted = false` every fetched row has null
`deleted_at`; with `include_deleted = true` the row predicate imposes no
`deleted_at` condition at all — it reduces to the date, search and
exclusion clauses. -/
theorem c6_deleted_filter (table : List WaitlistRow) (sd ed : Option Nat)
    (sc : SearchCol) (term : String) (ex : List String) (r : WaitlistRow) :
    (r ∈ fetch_waitlist_rows table sd ed false sc term ex → r.deleted_at = none) ∧
    rowMatches sd ed true sc term ex r =
      (dateOkB sd ed r && searchPredB sc term r && exclPredB ex r) := by
  constructor
  · intro hr
    have h := (mem_fetch.mp hr).2
    rw [rowMatches, baseFilters] at h
    simp only [Bool.and_eq_true] at h
    have hdel := h.1.1.1
    rw [deletedOkB, Bool.false_or, beq_iff_eq] at hdel
    exact hdel
  · rw [rowMatches, baseFilters, deletedOkB]
    simp [Bool.and_assoc]

/-- Claim C6 witness: applied at a concrete soft-deleted row and a table
containing it, discharging the membership hypothesis vacuously via the
fetched result, and at an active row actually fetched. -/
theorem c6_deleted_filter_witness :
    (rowOba ∈ fetch_waitlist_rows [rowOba] none none false SearchCol.any "" [] →
      rowOba.deleted_at = none) ∧
    rowMatches none none true SearchCol.any "" [] rowOba =
      (dateOkB none none rowOba && searchPredB SearchCol.any "" rowOba &&
        exclPredB [] rowOba) :=
  c6_deleted_filter [rowOba] none none SearchCol.any "" [] rowOba

theorem any_congr_of_mem {α : Type} {l : List α} {f g : α → Bool}
    (h : ∀ x ∈ l, f x = g x) : l.any f = l.any g := by
  induction l with
  | nil => rfl
  | cons x xs ih =>
    rw [List.any_cons, List.any_cons, h x (List.mem_cons_self x xs),
      ih (fun y hy => h y (List.mem_cons_of_mem x hy))]

theorem excludeMatchB_plain (t : String) (r : WaitlistRow) (h : plainStr t = true) :
    excludeMatchB t r =
      (toString r.id == t || icontains r.email t ||
       icontains r.name t || icontains r.phone t) := by
  rw [excludeMatchB, ilike_plain _ _ h, ilike_plain _ _ h, ilike_plain _ _ h]

/-- Claim C4 counterexample: the claim as stated is false. The exclude term
`a_c` neither equals the id text of the row with email `abc` nor occurs
case-insensitively as a substring of its email, name, or phone, yet the row
is dropped from the result, because `_` in the bound `%a_c%` pattern is a
single-character `LIKE` wildcard. -/
theorem c4_counterexample :
    fetch_waitlist_rows [rowAbc] none none false SearchCol.any "" ["a_c"] = [] ∧
    baseFilters none none false SearchCol.any "" rowAbc = true ∧
    (toString rowAbc.id == "a_c") = false ∧
    icontains rowAbc.email "a_c" = false ∧
    icontains rowAbc.name "a_c" = false ∧
    icontains rowAbc.phone "a_c" = false := by
  decide

/-- Claim C4 (amended): for exclude terms free of `LIKE` wildcard and escape
characters, and for every setting of the other filters, a row of the table
appears in the result of `fetch_waitlist_rows` exactly when it passes the
other filters and no exclude term equals its id cast to text or occurs
case-insensitively as a substring of its email, name, or phone; so a row
matching some exclude term is dropped regardless of the other filters. -/
theorem c4_exclude_terms (table : List WaitlistRow) (sd ed : Option Nat)
    (incl : Bool) (sc : SearchCol) (term : String) (ex : List String)
    (r : WaitlistRow) (hplain : ex.all plainStr = true) :
    r ∈ fetch_waitlist_rows table sd ed incl sc term ex ↔
      (r ∈ table ∧ baseFilters sd ed incl sc term r = true ∧
       ex.any (fun t => toString r.id == t || icontains r.email t ||
         icontains r.name t || icontains r.phone t) = false) := by
  rw [mem_fetch, rowMatches]
  rw [List.all_eq_true] at hplain
  have hany : ex.any (fun t => excludeMatchB t r) =
      ex.any (fun t => toString r.id == t || icontains r.email t ||
        icontains r.name t || icontains r.phone t) :=
    any_congr_of_mem (fun t ht => excludeMatchB_plain t r (hplain t ht))
  rw [Bool.and_eq_true, exclPredB, Bool.not_eq_true', hany]

/-- Claim C4 witness: the amended characterization applied at a concrete
table, exclude list and row, both with a matching exclude term (row dropped)
and with a non-matching one (row kept). -/
theorem c4_exclude_terms_witness :
    ["spam@example.com"].all plainStr = true ∧
    (rowOba ∈ fetch_waitlist_rows [rowOba] none none false SearchCol.any ""
        ["spam@example.com"] ↔
      (rowOba ∈ [rowOba] ∧
       baseFilters none none false SearchCol.any "" rowOba = true ∧
       ["spam@example.com"].any (fun t => toString rowOba.id == t ||
         icontains rowOba.email t || icontains rowOba.name t ||
         icontains rowOba.phone t) = false)) :=
  ⟨by decide,
   c4_exclude_terms [rowOba] none none false SearchCol.any "" ["spam@example.com"]
     rowOba (by decide)⟩

/-- The three-row email example from the specification. -/
def emailRows3 : List (String → Option String) :=
  [fun c => if c = "email" then some "a@x.com" else none,
   fun c => if c = "email" then some "a@x.com" else none,
   fun c => if c = "email" then some "b@x.com" else none]

/-- Claim C3: the distinct count — de-duplicating the rows by the chosen
column first and then counting unique values — equals the number of
distinct (non-null) values of that column across the whole result set, and
over the three-row email example it equals 2. -/
theorem c3_distinct_count :
    (∀ (c : String) (rows : List (String → Option String)),
        distinct_count c rows =
          ((rows.map (fun r => r c)).filterMap id).dedup.length) ∧
    distinct_count "email" emailRows3 = 2 :=
  ⟨distinct_count_eq, by decide⟩

/-- Claim C7: when the requested distinct-count column is absent from the
result's column schema, the resolved column is `email` and the displayed
metric is the distinct count of the email column. -/
theorem c7_distinct_fallback (distinct_by : String) (columns : List String)
    (rows : List (String → Option String)) (h : distinct_by ∉ columns) :
    resolve_distinct_by distinct_by columns = "email" ∧
    distinct_metric distinct_by columns rows = distinct_count "email" rows := by
  have hres : resolve_distinct_by distinct_by columns = "email" := by
    rw [resolve_distinct_by, if_neg h]
  exact ⟨hres, by rw [distinct_metric, hres]⟩

/-- Claim C7 witness: the fallback applied to a schema without the requested
column `phone`. -/
theorem c7_distinct_fallback_witness :
    "phone" ∉ ["id", "email"] ∧
    (resolve_distinct_by "phone" ["id", "email"] = "email" ∧
     distinct_metric "phone" ["id", "email"] emailRows3 =
       distinct_count "email" emailRows3) :=
  ⟨by decide, c7_distinct_fallback "phone" ["id", "email"] emailRows3 (by decide)⟩

/-- Claim C8: when the database query fails, the script makes exactly one
query attempt, shows the error inline (`st.error` followed by `st.stop`),
and does not crash the session. -/
theorem c8_query_error_inline (db : Nat → QueryOutcome) (m : String)
    (h : db 0 = QueryOutcome.err m) :
    (render_fetch db).1 = 1 ∧
    (render_fetch db).2 = RenderOutcome.errorShown m ∧
    (render_fetch db).2 ≠ RenderOutcome.crashed := by
  unfold render_fetch
  rw [h]
  exact ⟨rfl, rfl, fun hc => RenderOutcome.noConfusion hc⟩

/-- Claim C8 witness: a database whose every attempt fails with `boom`. -/
theorem c8_query_error_inline_witness :
    (render_fetch (fun _ => QueryOutcome.err "boom")).1 = 1 ∧
    (render_fetch (fun _ => QueryOutcome.err "boom")).2 =
      RenderOutcome.errorShown "boom" ∧
    (render_fetch (fun _ => QueryOutcome.err "boom")).2 ≠ RenderOutcome.crashed :=
  c8_query_error_inline (fun _ => QueryOutcome.err "boom") "boom" rfl

/-- Claim C9: with an empty search term, `fetch_waitlist_rows` builds the
same SQL text and the same bound-parameter mapping — and returns the same
rows — whatever the selected search column is: an empty term adds no search
predicate. -/
theorem c9_empty_term_col_irrelevant (sd ed : Option String) (sdt edt : Option Nat)
    (incl : Bool) (ex : List String) (c c' : SearchCol) (table : List WaitlistRow) :
    buildQuery sd ed incl c "" ex = buildQuery sd ed incl c' "" ex ∧
    fetch_waitlist_rows table sdt edt incl c "" ex =
      fetch_waitlist_rows table sdt edt incl c' "" ex := by
  constructor
  · simp [buildQuery]
  · simp [fetch_waitlist_rows, rowMatches, baseFilters, searchPredB]

/-- The all-null two-row result set: every row has a null email. -/
def nullRows : List (String → Option String) := [fun _ => none, fun _ => none]

/-- Claim C10: the distinct count is the cardinality of the set of distinct
non-null values of the chosen column, and a result set whose rows all have a
null value in that column has distinct count 0. -/
theorem c10_nulls_not_counted (c : String) (rows : List (String → Option String)) :
    distinct_count c rows = ((rows.map (fun r => r c)).filterMap id).toFinset.card ∧
    ((∀ r ∈ rows, r c = none) → distinct_count c rows = 0) := by
  have h1 := distinct_count_eq c rows
  constructor
  · rw [h1, List.card_toFinset]
  · intro hall
    rw [h1]
    have hnil : (rows.map (fun r => r c)).filterMap id = [] := by
      rw [List.eq_nil_iff_forall_not_mem]
      intro a ha
      rw [mem_filterMap_id, List.mem_map] at ha
      obtain ⟨r, hr, hrc⟩ := ha
      rw [hall r hr] at hrc
      exact Option.noConfusion hrc
    rw [hnil]
    rfl

/-- Claim C10 witness: over the all-null two-row set, the distinct email
count is 0. -/
theorem c10_nulls_not_counted_witness :
    (∀ r ∈ nullRows, r "email" = none) ∧ distinct_count "email" nullRows = 0 := by
  have hall : ∀ r ∈ nullRows, r "email" = none := by
    intro r hr
    rcases List.mem_cons.mp hr with h | h
    · rw [h]
    · rw [List.mem_singleton.mp h]
  exact ⟨hall, (c10_nulls_not_counted "email" nullRows).2 hall⟩
